import Mathlib

/-!
Shallow embedding of the watermarking tool core
(`src/config.py`, `src/core/watermark_engine.py`, `src/core/image_watermark.py`,
`src/models/schemas.py`, `src/core/batch_processor.py`) together with theorems
settling the frozen specification claims.

Modelling conventions:
* Python `int` is `ℤ` (or `ℕ` for values that are sizes / pixel channels),
  Python `float` arithmetic is modelled exactly over `ℚ`;
* Python `int(x)` (truncation toward zero) is `pyTrunc`;
* Python truthiness of `Optional[str]` / `Optional[int]` values is made explicit
  (`None` and `""` / `0` are falsy);
* effectful library calls (PIL decoding, file I/O) are abstracted as function
  parameters returning `Except String _`; pure computations are translated
  directly from the source.
-/

/-- Python `int(q)` on a float/rational: truncation toward zero. -/
def pyTrunc (q : ℚ) : ℤ :=
  if q < 0 then ⌈q⌉ else ⌊q⌋

/-- Python truthiness of an `Optional[str]`: `None` and the empty string are falsy. -/
def pyTruthyStr : Option String → Bool
  | none => false
  | some s => s ≠ ""

/-- Python truthiness of an `Optional[int]`: `None` and `0` are falsy. -/
def pyTruthyInt : Option ℤ → Bool
  | none => false
  | some n => n ≠ 0

/-- Python `str.lower()` restricted to its ASCII behaviour (all strings the
program lowercases are filename extensions). -/
def pyLower (s : String) : String :=
  String.mk (s.data.map Char.toLower)

/-! ## `src/config.py` -/

/-- `SUPPORTED_IMAGE_FORMATS` (config.py line 19). -/
def SUPPORTED_IMAGE_FORMATS : List String :=
  [".jpg", ".jpeg", ".png", ".bmp", ".gif", ".tiff", ".tif", ".webp"]

/-- `SUPPORTED_VIDEO_FORMATS` (config.py line 23). -/
def SUPPORTED_VIDEO_FORMATS : List String :=
  [".mp4", ".avi", ".mov", ".mkv", ".wmv", ".flv", ".webm", ".m4v"]

/-- `SUPPORTED_INPUT_FORMATS = SUPPORTED_IMAGE_FORMATS | SUPPORTED_VIDEO_FORMATS`
(config.py line 27); the Python set union is modelled as list concatenation,
only membership is ever used. -/
def SUPPORTED_INPUT_FORMATS : List String :=
  SUPPORTED_IMAGE_FORMATS ++ SUPPORTED_VIDEO_FORMATS

/-- `POSITION_MAP` (config.py lines 43-53): the 9-point anchor system mapping a
position name to fractional (x, y) factors; the Python float `0.5` is the exact
rational `mkRat 1 2`. -/
def POSITION_MAP : List (String × (ℚ × ℚ)) :=
  [("top-left", (0, 0)),
   ("top-center", (mkRat 1 2, 0)),
   ("top-right", (1, 0)),
   ("middle-left", (0, mkRat 1 2)),
   ("center", (mkRat 1 2, mkRat 1 2)),
   ("middle-right", (1, mkRat 1 2)),
   ("bottom-left", (0, 1)),
   ("bottom-center", (mkRat 1 2, 1)),
   ("bottom-right", (1, 1))]

/-! ## `WatermarkEngine.calculate_position` (watermark_engine.py lines 166-215) -/

/-- One axis of the anchor resolution in `calculate_position`: factor `0` gives the
margin, factor `0.5` gives the centred floor-divided offset (Python `//` is floor
division, `Int.fdiv`), anything else gives `target - overlay - margin`. -/
def positionAxis (factor : ℚ) (target overlay margin : ℤ) : ℤ :=
  if factor = 0 then margin
  else if factor = mkRat 1 2 then Int.fdiv (target - overlay) 2
  else target - overlay - margin

/-- `WatermarkEngine.calculate_position`: custom coordinates are returned verbatim
when position is `"custom"` and both are supplied; otherwise the position name is
looked up in `POSITION_MAP`, falling back to `"bottom-right"` when absent, and each
axis is resolved independently. -/
def calculate_position (image_size watermark_size : ℤ × ℤ) (position : String)
    (margin : ℤ) (custom_x custom_y : Option ℤ) : ℤ × ℤ :=
  let img_w := image_size.1
  let img_h := image_size.2
  let wm_w := watermark_size.1
  let wm_h := watermark_size.2
  match custom_x, custom_y with
  | some cx, some cy =>
    if position = "custom" then (cx, cy)
    else
      let pos := if (POSITION_MAP.lookup position).isSome then position else "bottom-right"
      let factors := (POSITION_MAP.lookup pos).getD (1, 1)
      (positionAxis factors.1 img_w wm_w margin, positionAxis factors.2 img_h wm_h margin)
  | _, _ =>
    let pos := if (POSITION_MAP.lookup position).isSome then position else "bottom-right"
    let factors := (POSITION_MAP.lookup pos).getD (1, 1)
    (positionAxis factors.1 img_w wm_w margin, positionAxis factors.2 img_h wm_h margin)

/-! ## RGBA pixel buffers

PIL images in RGBA mode are modelled as a size together with a row-major pixel
list; each pixel carries four natural-number channels (each in 0..255 for real
buffers, which none of the claims need as a side condition). -/

/-- One RGBA pixel. -/
structure Pixel where
  r : ℕ
  g : ℕ
  b : ℕ
  a : ℕ
deriving DecidableEq, Repr

/-- An RGBA buffer: dimensions plus row-major pixels. -/
structure Img where
  width : ℕ
  height : ℕ
  pixels : List Pixel
deriving DecidableEq, Repr

/-- `WatermarkEngine.apply_opacity` (watermark_engine.py lines 217-238): splits
the RGBA channels, maps `lambda x: int(x * opacity)` over the alpha channel and
merges back; R, G, B and the dimensions are untouched. -/
def apply_opacity (image : Img) (opacity : ℚ) : Img :=
  { width := image.width
    height := image.height
    pixels := image.pixels.map fun p =>
      { r := p.r, g := p.g, b := p.b, a := (pyTrunc ((p.a : ℚ) * opacity)).toNat } }

/-- Pillow's RGB-to-L luma (`ImagingConvert.c`, ITU-R 601-2):
`L = (19595 R + 38470 G + 7471 B) >> 16`, used by `Image.convert("L")`. -/
def pilLuma (r g b : ℕ) : ℕ :=
  (19595 * r + 38470 * g + 7471 * b) / 65536

/-- `ImageWatermark._convert_to_grayscale` (image_watermark.py lines 86-109):
splits off the alpha band, converts the RGB bands to `L` (Pillow luma), stacks
the luma into all three colour channels and puts the original alpha band back
with `putalpha`. -/
def convert_to_grayscale (image : Img) : Img :=
  { width := image.width
    height := image.height
    pixels := image.pixels.map fun p =>
      { r := pilLuma p.r p.g p.b
        g := pilLuma p.r p.g p.b
        b := pilLuma p.r p.g p.b
        a := p.a } }

/-! ## `WatermarkEngine.create_tile_pattern` (watermark_engine.py lines 256-298)

The two `while` loops are translated with an explicit fuel argument. The inner
loop advances `x` by `step_x` per iteration and stops as soon as `x < img_w`
fails, so when `step_x ≥ 1` it runs at most `img_w` iterations and fuel
`img_w + 1` is never exhausted; likewise `img_h + 1` for the row loop. In the
program `step = watermark side + tile_spacing` and `tile_spacing ≥ 10` is
enforced by the config schema, so the steps are always positive. -/

/-- Inner `while x < img_w` loop of `create_tile_pattern`: the x coordinates
pasted in one row, starting at `x` and advancing by `step_x`. -/
def tileXs : ℕ → ℕ → ℕ → ℕ → List ℕ
  | 0, _, _, _ => []
  | fuel + 1, x, img_w, step_x =>
    if x < img_w then x :: tileXs fuel (x + step_x) img_w step_x else []

/-- Outer `while y < img_h` loop of `create_tile_pattern`: the (row index, y)
pairs visited, starting at `y` with row counter `row` and advancing by
`step_y`. -/
def tileRows : ℕ → ℕ → ℕ → ℕ → ℕ → List (ℕ × ℕ)
  | 0, _, _, _, _ => []
  | fuel + 1, y, row, img_h, step_y =>
    if y < img_h then (row, y) :: tileRows fuel (y + step_y) (row + 1) img_h step_y else []

/-- The buffer built by `create_tile_pattern`: since the same overlay is pasted
repeatedly onto a fresh transparent canvas, the buffer is fully described by the
canvas size, the fill colour of `Image.new` and the ordered paste positions. -/
structure TileLayer where
  size : ℕ × ℕ
  background : ℕ × ℕ × ℕ × ℕ
  pastes : List (ℕ × ℕ)
deriving DecidableEq, Repr

/-- `WatermarkEngine.create_tile_pattern`: a transparent full-canvas layer,
rows starting at `y = spacing`, each row starting at `x = spacing` plus a
half-step offset on odd rows (`x_offset = (step_x // 2) if row % 2 else 0`). -/
def create_tile_pattern (wm_w wm_h img_w img_h spacing : ℕ) : TileLayer :=
  let step_x := wm_w + spacing
  let step_y := wm_h + spacing
  { size := (img_w, img_h)
    background := (0, 0, 0, 0)
    pastes :=
      (tileRows (img_h + 1) spacing 0 img_h step_y).flatMap fun ry =>
        (tileXs (img_w + 1) (spacing + (if ry.1 % 2 = 1 then step_x / 2 else 0))
            img_w step_x).map fun x => (x, ry.2) }

/-- Two pasted copies of a `w` by `h` overlay at positions `p` and `q` do not
overlap. -/
def rectDisjoint (w h : ℕ) (p q : ℕ × ℕ) : Prop :=
  p.1 + w ≤ q.1 ∨ q.1 + w ≤ p.1 ∨ p.2 + h ≤ q.2 ∨ q.2 + h ≤ p.2

instance (w h : ℕ) (p q : ℕ × ℕ) : Decidable (rectDisjoint w h p q) := by
  unfold rectDisjoint
  infer_instance

/-! ## `WatermarkEngine.resize_image` (watermark_engine.py lines 329-367)

The result encodes what the source returns: `none` means the input image object
is returned unchanged (the `width is None and height is None` early exit);
`some (w, h)` means `image.resize((w, h), LANCZOS)` is returned, so `(w, h)` is
the size of the result. Python float arithmetic is modelled exactly over `ℚ`
and `int(...)` is `pyTrunc`. Python truthiness of the optional dimensions
(`if width and height` / `elif width` / `width or orig_w`) is `pyTruthyInt`.
The final `else` branch reads `height`; a run reaching it with `height = None`
would crash in Python, and `getD 0` is never exercised by such runs. -/

/-- `WatermarkEngine.resize_image`. -/
def resize_image (orig_w orig_h : ℤ) (width height : Option ℤ)
    (maintain_aspect : Bool) : Option (ℤ × ℤ) :=
  match width, height with
  | none, none => none
  | _, _ => some (
    if maintain_aspect then
      if pyTruthyInt width && pyTruthyInt height then
        let w := width.getD 0
        let h := height.getD 0
        let sc : ℚ := min ((w : ℚ) / (orig_w : ℚ)) ((h : ℚ) / (orig_h : ℚ))
        (pyTrunc ((orig_w : ℚ) * sc), pyTrunc ((orig_h : ℚ) * sc))
      else if pyTruthyInt width then
        let w := width.getD 0
        let sc : ℚ := (w : ℚ) / (orig_w : ℚ)
        (w, pyTrunc ((orig_h : ℚ) * sc))
      else
        let h := height.getD 0
        let sc : ℚ := (h : ℚ) / (orig_h : ℚ)
        (pyTrunc ((orig_w : ℚ) * sc), h)
    else
      (if pyTruthyInt width then width.getD 0 else orig_w,
       if pyTruthyInt height then height.getD 0 else orig_h))

deriving instance DecidableEq for Except

/-! ## `src/models/schemas.py`: `ImageWatermarkConfig` (lines 100-116)

Pydantic validates each field against its declared `Field` constraints at
construction time, in declaration order, and raises on the first violation.
`ImageWatermarkRaw` is the keyword-argument input (defaults as declared) and
`ImageWatermarkConfig.validate` is the generated constructor-time validation.
The model has no validator tying `logo_path` to `logo_base64`. Python floats
are exact rationals here (`0.5` is `mkRat 1 2`, `0.15` is `mkRat 15 100`). -/

/-- The legal `WatermarkPosition` enum values (schemas.py lines 10-22). -/
def WATERMARK_POSITION_VALUES : List String :=
  ["top-left", "top-center", "top-right", "middle-left", "center", "middle-right",
   "bottom-left", "bottom-center", "bottom-right", "custom", "tile"]

/-- Keyword arguments for `ImageWatermarkConfig(...)` with the declared
defaults. -/
structure ImageWatermarkRaw where
  logo_path : Option String := none
  logo_base64 : Option String := none
  opacity : ℚ := mkRat 1 2
  position : String := "bottom-right"
  custom_x : Option ℤ := none
  custom_y : Option ℤ := none
  rotation : ℚ := 0
  margin : ℤ := 20
  scale : ℚ := mkRat 15 100
  maintain_aspect_ratio : Bool := true
  tile_spacing : ℤ := 150
  grayscale : Bool := false
deriving DecidableEq, Repr

/-- A validated `ImageWatermarkConfig` instance. -/
structure ImageWatermarkConfig where
  logo_path : Option String
  logo_base64 : Option String
  opacity : ℚ
  position : String
  custom_x : Option ℤ
  custom_y : Option ℤ
  rotation : ℚ
  margin : ℤ
  scale : ℚ
  maintain_aspect_ratio : Bool
  tile_spacing : ℤ
  grayscale : Bool
deriving DecidableEq, Repr

/-- Pydantic construction-time validation of `ImageWatermarkConfig`: the field
constraints declared in schemas.py lines 100-116, checked in declaration order
(`logo_path` and `logo_base64` are unconstrained `Optional[str]` fields). -/
def ImageWatermarkConfig.validate (r : ImageWatermarkRaw) :
    Except String ImageWatermarkConfig :=
  if ¬ (0 ≤ r.opacity ∧ r.opacity ≤ 1) then
    .error "opacity must be between 0.0 and 1.0"
  else if ¬ (r.position ∈ WATERMARK_POSITION_VALUES) then
    .error "position must be a valid WatermarkPosition"
  else if ¬ (-360 ≤ r.rotation ∧ r.rotation ≤ 360) then
    .error "rotation must be between -360 and 360"
  else if ¬ (0 ≤ r.margin ∧ r.margin ≤ 500) then
    .error "margin must be between 0 and 500"
  else if ¬ (mkRat 1 100 ≤ r.scale ∧ r.scale ≤ 1) then
    .error "scale must be between 0.01 and 1.0"
  else if ¬ (20 ≤ r.tile_spacing ∧ r.tile_spacing ≤ 500) then
    .error "tile_spacing must be between 20 and 500"
  else
    .ok { logo_path := r.logo_path, logo_base64 := r.logo_base64,
          opacity := r.opacity, position := r.position,
          custom_x := r.custom_x, custom_y := r.custom_y,
          rotation := r.rotation, margin := r.margin, scale := r.scale,
          maintain_aspect_ratio := r.maintain_aspect_ratio,
          tile_spacing := r.tile_spacing, grayscale := r.grayscale }

/-! ## `ImageWatermark.load_logo` (image_watermark.py lines 19-40)

The two decoders (`engine.decode_base64_image`, `engine.load_image`) perform
PIL I/O and are abstracted as `Except`-valued parameters; the trailing RGBA
normalisation is part of what they return. The branch structure follows Python
truthiness: `if config.logo_base64: ... elif config.logo_path: ... else:
raise ValueError(...)`. -/

/-- `ImageWatermark.load_logo`. -/
def load_logo (decode_base64_image : String → Except String Img)
    (load_image : String → Except String Img)
    (config : ImageWatermarkConfig) : Except String Img :=
  if pyTruthyStr config.logo_base64 then
    decode_base64_image (config.logo_base64.getD "")
  else if pyTruthyStr config.logo_path then
    load_image (config.logo_path.getD "")
  else
    .error "Either logo_path or logo_base64 must be provided"

/-! ## `src/core/batch_processor.py`

Per-file processing (`process_single_image` try-block: load, EXIF, watermarks,
optional resize, save) is effectful; it is abstracted as a `pipeline`
parameter returning either `(original_size, output_size)` or the message of
the exception raised. The filename computation is pure and translated
directly. Wall-clock timing fields and the video-only fields of the schemas
are omitted: no claim mentions them. The thread pool completes tasks in a
nondeterministic order; the model processes the filtered paths in list order,
standing for whichever completion order occurred — the claims are insensitive
to which. No cancellation is issued during the runs modelled here. -/

/-- A `pathlib.Path` as used by the batch processor: `stem` plus extension
(`Path.suffix` in Python, including the leading dot). -/
structure PyPath where
  stem : String
  ext : String
deriving DecidableEq, Repr

/-- `Path.name`: stem followed by extension. -/
def PyPath.name (p : PyPath) : String := p.stem ++ p.ext

/-- Python `str.upper()` restricted to ASCII, as applied to format names. -/
def pyUpper (s : String) : String :=
  String.mk (s.data.map Char.toUpper)

/-- `BatchProcessor._format_to_extension` (batch_processor.py lines 326-333):
dictionary lookup with default `.jpg`. -/
def format_to_extension (format : String) : String :=
  if pyUpper format = "JPEG" then ".jpg"
  else if pyUpper format = "PNG" then ".png"
  else if pyUpper format = "WEBP" then ".webp"
  else ".jpg"

/-- `BatchProcessor._generate_output_filename` (batch_processor.py lines
302-324): `prefix + stem + suffix + extension`. -/
def generate_output_filename (input_path : PyPath)
    (prefixStr suffixStr output_format : String) : String :=
  prefixStr ++ input_path.stem ++ suffixStr ++ format_to_extension output_format

/-- The fields of `BatchProcessConfig` that `process_batch` reads for filename
generation (`prefix`, `suffix`, `output_format.value`); defaults as declared in
schemas.py lines 147-179. -/
structure BatchCfg where
  prefixStr : String := ""
  suffixStr : String := "_watermarked"
  output_format : String := "JPEG"
deriving DecidableEq, Repr

/-- `ProcessingResult` (schemas.py lines 197-208) without the timing and video
fields. -/
structure ProcessingResult where
  input_file : String
  output_file : Option String := none
  success : Bool
  error : Option String := none
  original_size : Option (ℕ × ℕ) := none
  output_size : Option (ℕ × ℕ) := none
deriving DecidableEq, Repr

/-- `BatchProcessingResult` (schemas.py lines 210-218) without the timing
field. -/
structure BatchProcessingResult where
  total_files : ℤ
  total_images : ℤ
  total_videos : ℤ
  successful : ℤ
  failed : ℤ
  results : List ProcessingResult
deriving DecidableEq, Repr

/-- The keyword arguments of a `BatchProcessingResult(...)` call: every field
is optional at the call site; pydantic then fills defaults and rejects missing
required fields. -/
structure BatchProcessingResultArgs where
  total_files : Option ℤ := none
  total_images : Option ℤ := none
  total_videos : Option ℤ := none
  successful : Option ℤ := none
  failed : Option ℤ := none
  results : Option (List ProcessingResult) := none

/-- Pydantic construction of `BatchProcessingResult`: `total_files` is declared
required (`Field(...)`, schemas.py line 212) so a call that omits it raises a
`ValidationError`; every other field has a declared default. -/
def BatchProcessingResult.construct (a : BatchProcessingResultArgs) :
    Except String BatchProcessingResult :=
  match a.total_files with
  | none => .error "1 validation error for BatchProcessingResult: total_files is required"
  | some tf =>
    .ok { total_files := tf
          total_images := a.total_images.getD 0
          total_videos := a.total_videos.getD 0
          successful := a.successful.getD 0
          failed := a.failed.getD 0
          results := a.results.getD [] }

/-- `BatchProcessor.process_single_image` (batch_processor.py lines 73-171):
the whole try-block is the abstract `pipeline`; on success a successful
`ProcessingResult` with the generated output filename and both sizes, on any
exception a failed result carrying `str(e)` as the error message. -/
def process_single_image (pipeline : PyPath → Except String ((ℕ × ℕ) × (ℕ × ℕ)))
    (input_path : PyPath) (config : BatchCfg) : ProcessingResult :=
  match pipeline input_path with
  | .ok sizes =>
    { input_file := input_path.name
      output_file := some (generate_output_filename input_path
        config.prefixStr config.suffixStr config.output_format)
      success := true
      error := none
      original_size := some sizes.1
      output_size := some sizes.2 }
  | .error e =>
    { input_file := input_path.name
      success := false
      error := some e }

/-- `BatchProcessor.process_batch` (batch_processor.py lines 173-259): filters
the input paths by lowercased extension against `SUPPORTED_INPUT_FORMATS`,
processes each filtered path, counts successes and failures, records one
progress-callback invocation `(i + 1, total, path.name)` per completed task,
and finally constructs the `BatchProcessingResult` exactly as the call at lines
253-259 does — passing `total_images`, `successful`, `failed` and `results`
but not `total_files`. The first component is the construction outcome, the
second the progress-callback trace. -/
def process_batch (pipeline : PyPath → Except String ((ℕ × ℕ) × (ℕ × ℕ)))
    (input_paths : List PyPath) (config : BatchCfg) :
    Except String BatchProcessingResult × List (ℕ × ℕ × String) :=
  let valid_paths := input_paths.filter fun p => pyLower p.ext ∈ SUPPORTED_INPUT_FORMATS
  let total := valid_paths.length
  let results := valid_paths.map fun p => process_single_image pipeline p config
  let successful := (results.filter fun r => r.success).length
  let failed := (results.filter fun r => !r.success).length
  let progress := valid_paths.enum.map fun ip => (ip.1 + 1, total, ip.2.name)
  (BatchProcessingResult.construct
    { total_images := some (total : ℤ)
      successful := some (successful : ℤ)
      failed := some (failed : ℤ)
      results := some results },
   progress)

/-! ## Concrete fixtures used by the closed theorems -/

/-- A 1 by 1 red test image. -/
def imgA : Img := { width := 1, height := 1, pixels := [⟨255, 0, 0, 255⟩] }

/-- A 1 by 1 green test image, distinct from `imgA`. -/
def imgB : Img := { width := 1, height := 1, pixels := [⟨0, 255, 0, 255⟩] }

/-- A base64 decoder stub that always yields `imgA`. -/
def decodeStub : String → Except String Img := fun _ => .ok imgA

/-- A file loader stub that always yields `imgB`. -/
def loadStub : String → Except String Img := fun _ => .ok imgB

/-- `ImageWatermarkConfig()` keyword arguments: all defaults, in particular
neither `logo_path` nor `logo_base64`. -/
def rawNoLogo : ImageWatermarkRaw := {}

/-- The validated config produced from `rawNoLogo`. -/
def cfgNoLogo : ImageWatermarkConfig :=
  { logo_path := none, logo_base64 := none, opacity := mkRat 1 2,
    position := "bottom-right", custom_x := none, custom_y := none,
    rotation := 0, margin := 20, scale := mkRat 15 100,
    maintain_aspect_ratio := true, tile_spacing := 150, grayscale := false }

/-- `ImageWatermarkConfig(opacity=2.0)` keyword arguments. -/
def rawBadOpacity : ImageWatermarkRaw := { opacity := 2 }

/-- A config with `logo_base64` set to the empty string and `logo_path` set. -/
def cfgEmptyB64 : ImageWatermarkConfig :=
  { cfgNoLogo with logo_base64 := some "", logo_path := some "logo.png" }

/-- A config with a non-empty `logo_base64` and a `logo_path` both set. -/
def cfgBothSet : ImageWatermarkConfig :=
  { cfgNoLogo with logo_base64 := some "aGk=", logo_path := some "logo.png" }

/-- Five valid image paths. -/
def imgPath1 : PyPath := ⟨"img1", ".jpg"⟩

/-- Second valid image path. -/
def imgPath2 : PyPath := ⟨"img2", ".jpg"⟩

/-- Third valid image path. -/
def imgPath3 : PyPath := ⟨"img3", ".jpg"⟩

/-- Fourth valid image path. -/
def imgPath4 : PyPath := ⟨"img4", ".jpg"⟩

/-- Fifth valid image path. -/
def imgPath5 : PyPath := ⟨"img5", ".jpg"⟩

/-- A path whose file content is corrupt (decoding fails). -/
def corruptPath : PyPath := ⟨"corrupt", ".png"⟩

/-- A video path: its extension is not an image extension. -/
def mp4Path : PyPath := ⟨"video", ".mp4"⟩

/-- A path with an unsupported extension. -/
def txtPath : PyPath := ⟨"notes", ".txt"⟩

/-- A per-file pipeline in which every file processes successfully as an
800 by 600 image. -/
def pipelineOk : PyPath → Except String ((ℕ × ℕ) × (ℕ × ℕ)) :=
  fun _ => .ok ((800, 600), (800, 600))

/-- A per-file pipeline in which exactly the file with stem `corrupt` raises a
decode error and every other file processes successfully. -/
def pipelineOneCorrupt : PyPath → Except String ((ℕ × ℕ) × (ℕ × ℕ)) :=
  fun p =>
    if p.stem = "corrupt" then .error "cannot identify image file corrupt.png"
    else .ok ((800, 600), (800, 600))

/-- Default batch configuration fields. -/
def defaultBatchCfg : BatchCfg := {}

/-- The batch of claim C1: one corrupt file among 4 valid files. -/
def c1Paths : List PyPath := [imgPath1, imgPath2, corruptPath, imgPath3, imgPath4]

/-- The batch of claim C7: 5 valid images. -/
def c7Paths : List PyPath := [imgPath1, imgPath2, imgPath3, imgPath4, imgPath5]

/-! Theorems -/

/-- Claim C5: each axis of a 9-anchor position resolves independently
(factor 0 gives the margin, factor 0.5 gives the centred integer division,
factor 1 gives target minus overlay minus margin), any unknown position string
falls back to bottom-right, and the three concrete evaluations from the spec
hold: bottom-right gives (680, 530), center gives (350, 275) and top-left
gives (20, 20) on an 800 by 600 target with a 100 by 50 overlay and margin 20. -/
theorem claim_C5_calculate_position :
    (∀ (img_w img_h wm_w wm_h margin : ℤ) (pos : String) (fx fy : ℚ)
        (cx cy : Option ℤ),
      POSITION_MAP.lookup pos = some (fx, fy) →
      calculate_position (img_w, img_h) (wm_w, wm_h) pos margin cx cy =
        (positionAxis fx img_w wm_w margin, positionAxis fy img_h wm_h margin)) ∧
    (∀ (img_w img_h wm_w wm_h margin : ℤ) (pos : String),
      POSITION_MAP.lookup pos = none →
      calculate_position (img_w, img_h) (wm_w, wm_h) pos margin none none =
        calculate_position (img_w, img_h) (wm_w, wm_h) "bottom-right" margin none none) ∧
    calculate_position (800, 600) (100, 50) "bottom-right" 20 none none = (680, 530) ∧
    calculate_position (800, 600) (100, 50) "center" 20 none none = (350, 275) ∧
    calculate_position (800, 600) (100, 50) "top-left" 20 none none = (20, 20) := by
  refine ⟨?_, ?_, by decide, by decide, by decide⟩
  · intro img_w img_h wm_w wm_h margin pos fx fy cx cy h
    have hpos : pos ≠ "custom" := by
      intro hc
      subst hc
      simp [POSITION_MAP, List.lookup] at h
    cases cx <;> cases cy <;>
      simp [calculate_position, hpos, h]
  · intro img_w img_h wm_w wm_h margin pos h
    simp [calculate_position, h]

/-- Witness for claim C5 at a concrete unknown position string: an unrecognised
position resolves exactly like bottom-right. -/
theorem claim_C5_calculate_position_witness :
    calculate_position (800, 600) (100, 50) "nowhere" 20 none none = (680, 530) := by
  have h := claim_C5_calculate_position.2.1 800 600 100 50 20 "nowhere" (by decide)
  rw [h]
  exact claim_C5_calculate_position.2.2.1

/-- Every pixel channel is fixed by applying opacity `1.0`:
`int(a * 1.0) = a` on a natural channel value. -/
theorem apply_opacity_pixel_id (p : Pixel) :
    Pixel.mk p.r p.g p.b (pyTrunc ((p.a : ℚ) * 1)).toNat = p := by
  have h1 : ((p.a : ℚ) * 1) = (p.a : ℚ) := mul_one _
  have h2 : pyTrunc ((p.a : ℚ) * 1) = (p.a : ℤ) := by
    rw [h1]
    unfold pyTrunc
    rw [if_neg (by exact not_lt.2 (by positivity))]
    exact Int.floor_natCast p.a
  rw [h2, Int.toNat_natCast]

/-- Claim C6: `apply_opacity` keeps the dimensions and the R, G, B channels of
every pixel and multiplies each alpha value by the opacity with truncation to
integer; opacity `1.0` is the identity on the whole buffer and opacity `0.0`
yields an equal-sized buffer whose alpha channel is all zero. -/
theorem claim_C6_apply_opacity :
    (∀ (image : Img) (opacity : ℚ),
      (apply_opacity image opacity).width = image.width ∧
      (apply_opacity image opacity).height = image.height ∧
      List.Forall₂
        (fun q p => q.r = p.r ∧ q.g = p.g ∧ q.b = p.b ∧
          q.a = (pyTrunc ((p.a : ℚ) * opacity)).toNat)
        (apply_opacity image opacity).pixels image.pixels) ∧
    (∀ image : Img, apply_opacity image 1 = image) ∧
    (∀ image : Img,
      (apply_opacity image 0).width = image.width ∧
      (apply_opacity image 0).height = image.height ∧
      ∀ p ∈ (apply_opacity image 0).pixels, p.a = 0) := by
  refine ⟨fun image opacity => ⟨rfl, rfl, ?_⟩, fun image => ?_, fun image => ⟨rfl, rfl, ?_⟩⟩
  · rw [apply_opacity, List.forall₂_map_left_iff]
    exact List.forall₂_same.2 fun p _ => ⟨rfl, rfl, rfl, rfl⟩
  · cases image with
    | mk w h px =>
      rw [apply_opacity]
      simp only [Img.mk.injEq, true_and]
      calc px.map (fun p => Pixel.mk p.r p.g p.b (pyTrunc ((p.a : ℚ) * 1)).toNat)
          = px.map id := List.map_congr_left fun p _ => apply_opacity_pixel_id p
        _ = px := List.map_id px
  · intro p hp
    rw [apply_opacity] at hp
    obtain ⟨q, _, rfl⟩ := List.mem_map.1 hp
    show (pyTrunc ((q.a : ℚ) * 0)).toNat = 0
    rw [mul_zero]
    unfold pyTrunc
    rw [if_neg (lt_irrefl 0), Int.floor_zero]
    rfl

/-- Claim C8: `resize_image` is the identity when both dimensions are absent;
with aspect maintained and both dimensions given it scales both axes by the
minimum of the two per-axis ratios; with only one dimension given the other is
derived from the original aspect ratio; resizing an 800 by 600 image with only
width 400 returns size (400, 300). -/
theorem claim_C8_resize_image :
    (∀ (orig_w orig_h : ℤ) (m : Bool),
      resize_image orig_w orig_h none none m = none) ∧
    (∀ orig_w orig_h w h : ℤ, 0 < w → 0 < h →
      resize_image orig_w orig_h (some w) (some h) true =
        some (pyTrunc ((orig_w : ℚ) * min ((w : ℚ) / (orig_w : ℚ)) ((h : ℚ) / (orig_h : ℚ))),
              pyTrunc ((orig_h : ℚ) * min ((w : ℚ) / (orig_w : ℚ)) ((h : ℚ) / (orig_h : ℚ))))) ∧
    (∀ orig_w orig_h w : ℤ, 0 < w →
      resize_image orig_w orig_h (some w) none true =
        some (w, pyTrunc ((orig_h : ℚ) * ((w : ℚ) / (orig_w : ℚ))))) ∧
    (∀ orig_w orig_h h : ℤ, 0 < h →
      resize_image orig_w orig_h none (some h) true =
        some (pyTrunc ((orig_w : ℚ) * ((h : ℚ) / (orig_h : ℚ))), h)) ∧
    resize_image 800 600 (some 400) none true = some (400, 300) := by
  refine ⟨fun _ _ _ => rfl, ?_, ?_, ?_, ?_⟩
  · intro orig_w orig_h w h hw hh
    simp [resize_image, pyTruthyInt, hw.ne', hh.ne']
  · intro orig_w orig_h w hw
    simp [resize_image, pyTruthyInt, hw.ne']
  · intro orig_w orig_h h hh
    simp [resize_image, pyTruthyInt, hh.ne']
  · have h1 : ((600 : ℚ) * ((400 : ℚ) / (800 : ℚ))) = 300 := by norm_num
    simp only [resize_image, pyTruthyInt]
    norm_num [h1, pyTrunc]

/-- Witness for claim C8 with both bounding-box dimensions given: fitting an
800 by 600 image into a 400 by 300 box scales by one half on both axes. -/
theorem claim_C8_resize_image_witness :
    resize_image 800 600 (some 400) (some 300) true = some (400, 300) := by
  have h := claim_C8_resize_image.2.1 800 600 400 300 (by norm_num) (by norm_num)
  rw [h]
  norm_num [pyTrunc]

/-- Every x coordinate produced by the inner tiling loop lies on the arithmetic
grid starting at the loop's initial value and is inside the canvas. -/
theorem mem_tileXs {fuel x0 img_w step : ℕ} {x : ℕ}
    (hx : x ∈ tileXs fuel x0 img_w step) :
    ∃ k, x = x0 + k * step ∧ x < img_w := by
  induction fuel generalizing x0 with
  | zero => simp [tileXs] at hx
  | succ n ih =>
    rw [tileXs] at hx
    by_cases h : x0 < img_w
    · rw [if_pos h] at hx
      rcases List.mem_cons.1 hx with rfl | hx'
      · exact ⟨0, by simp, h⟩
      · obtain ⟨k, hk, hlt⟩ := ih hx'
        refine ⟨k + 1, ?_, hlt⟩
        rw [hk]
        ring
    · rw [if_neg h] at hx
      simp at hx

/-- Every (row index, y) pair produced by the outer tiling loop lies on the
arithmetic grid starting at the loop's initial value and is inside the
canvas. -/
theorem mem_tileRows {fuel y0 r0 img_h step : ℕ} {r y : ℕ}
    (h : (r, y) ∈ tileRows fuel y0 r0 img_h step) :
    ∃ j, r = r0 + j ∧ y = y0 + j * step ∧ y < img_h := by
  induction fuel generalizing y0 r0 with
  | zero => simp [tileRows] at h
  | succ n ih =>
    rw [tileRows] at h
    by_cases hy : y0 < img_h
    · rw [if_pos hy] at h
      rcases List.mem_cons.1 h with heq | h'
      · obtain ⟨hr, hy0⟩ := Prod.mk.injEq .. ▸ heq
        exact ⟨0, by omega, by omega, by omega⟩
      · obtain ⟨j, hr, hyj, hlt⟩ := ih h'
        refine ⟨j + 1, by omega, ?_, hlt⟩
        rw [hyj]
        ring
    · rw [if_neg hy] at h
      simp at h

/-- Counterexample to claim C3: tiling a 50 by 50 overlay onto a 300 by 300
canvas with spacing 100 pastes exactly 3 copies, at (100, 100), (250, 100) and
(175, 250) — fewer than the 4 the claim asserts. -/
theorem claim_C3_counterexample :
    (create_tile_pattern 50 50 300 300 100).pastes = [(100, 100), (250, 100), (175, 250)] ∧
    (create_tile_pattern 50 50 300 300 100).pastes.length = 3 ∧
    ¬ 4 ≤ (create_tile_pattern 50 50 300 300 100).pastes.length := by
  refine ⟨by decide, by decide, by decide⟩

/-- Claim C3 (amended): `create_tile_pattern` returns a full-canvas transparent
buffer whose pastes all lie on a grid starting at offset `spacing` from the top
and left edges (not at (0,0)), with every other row shifted horizontally by
half the horizontal step; tiling a 50 by 50 overlay onto a 300 by 300 canvas
with spacing 100 places exactly 3 (not at least 4) non-overlapping copies. -/
theorem claim_C3_tile_pattern_amended :
    (∀ wm_w wm_h img_w img_h spacing : ℕ,
      (create_tile_pattern wm_w wm_h img_w img_h spacing).size = (img_w, img_h) ∧
      (create_tile_pattern wm_w wm_h img_w img_h spacing).background = (0, 0, 0, 0) ∧
      ∀ p ∈ (create_tile_pattern wm_w wm_h img_w img_h spacing).pastes,
        ∃ row k,
          p.2 = spacing + row * (wm_h + spacing) ∧
          p.1 = spacing + (if row % 2 = 1 then (wm_w + spacing) / 2 else 0)
                  + k * (wm_w + spacing) ∧
          p.2 < img_h ∧ p.1 < img_w) ∧
    (create_tile_pattern 50 50 300 300 100).pastes.length = 3 ∧
    List.Pairwise (rectDisjoint 50 50) (create_tile_pattern 50 50 300 300 100).pastes := by
  refine ⟨?_, by decide, by decide⟩
  intro wm_w wm_h img_w img_h spacing
  refine ⟨rfl, rfl, ?_⟩
  intro p hp
  rw [create_tile_pattern] at hp
  simp only at hp
  obtain ⟨ry, hry, hp⟩ := List.mem_flatMap.1 hp
  obtain ⟨x, hx, rfl⟩ := List.mem_map.1 hp
  obtain ⟨r, y⟩ := ry
  obtain ⟨j, hr, hy, hylt⟩ := mem_tileRows hry
  obtain ⟨k, hxk, hxlt⟩ := mem_tileXs hx
  refine ⟨j, k, by simpa using hy, ?_, hylt, hxlt⟩
  simp only at hxk
  rw [hxk, hr]
  simp

/-- Witness for claim C3 (amended) at the concrete paste (175, 250) of the
50-50-300-300-100 instance: it lies on the staggered grid (row 1, shifted by
the half step 75). -/
theorem claim_C3_tile_pattern_amended_witness :
    ∃ row k,
      ((175, 250) : ℕ × ℕ).2 = 100 + row * (50 + 100) ∧
      ((175, 250) : ℕ × ℕ).1 = 100 + (if row % 2 = 1 then (50 + 100) / 2 else 0)
          + k * (50 + 100) ∧
      ((175, 250) : ℕ × ℕ).2 < 300 ∧ ((175, 250) : ℕ × ℕ).1 < 300 :=
  ((claim_C3_tile_pattern_amended.1 50 50 300 300 100).2.2 (175, 250)) (by decide)

/-- Claim C9: grayscale conversion keeps the dimensions, preserves the alpha of
every pixel exactly, and collapses the three colour channels of every pixel to
one equal luma value computed from the original RGB. -/
theorem claim_C9_grayscale :
    ∀ image : Img,
      (convert_to_grayscale image).width = image.width ∧
      (convert_to_grayscale image).height = image.height ∧
      List.Forall₂
        (fun q p => q.a = p.a ∧ q.r = pilLuma p.r p.g p.b ∧ q.r = q.g ∧ q.g = q.b)
        (convert_to_grayscale image).pixels image.pixels := by
  intro image
  refine ⟨rfl, rfl, ?_⟩
  rw [convert_to_grayscale, List.forall₂_map_left_iff]
  exact List.forall₂_same.2 fun p _ => ⟨rfl, rfl, rfl, rfl⟩

/-- Counterexample to claim C4: the keyword arguments with neither `logo_path`
nor `logo_base64` pass construction-time validation (no cross-field validator
exists), and the missing-logo error only surfaces later, when `load_logo` runs
during per-file processing. -/
theorem claim_C4_counterexample :
    ImageWatermarkConfig.validate rawNoLogo = .ok cfgNoLogo ∧
    load_logo decodeStub loadStub cfgNoLogo =
      .error "Either logo_path or logo_base64 must be provided" :=
  ⟨by decide, by decide⟩

/-- Claim C4 (amended): malformed field values such as an opacity outside
[0, 1] are rejected at config-construction time, but a configuration that
supplies neither a logo path nor inline logo bytes is accepted at construction;
the missing-logo error is raised by `load_logo` during processing (surfacing as
a mid-batch per-file failure) with a non-empty message. -/
theorem claim_C4_config_validation_amended :
    (∀ r : ImageWatermarkRaw, ¬ (0 ≤ r.opacity ∧ r.opacity ≤ 1) →
      ImageWatermarkConfig.validate r = .error "opacity must be between 0.0 and 1.0") ∧
    ImageWatermarkConfig.validate rawNoLogo = .ok cfgNoLogo ∧
    cfgNoLogo.logo_path = none ∧ cfgNoLogo.logo_base64 = none ∧
    (∀ decode_base64_image load_image : String → Except String Img,
      load_logo decode_base64_image load_image cfgNoLogo =
        .error "Either logo_path or logo_base64 must be provided") ∧
    "Either logo_path or logo_base64 must be provided" ≠ "" := by
  refine ⟨?_, by decide, rfl, rfl, fun _ _ => rfl, by decide⟩
  intro r h
  rw [ImageWatermarkConfig.validate, if_pos h]

/-- Witness for claim C4 (amended): an opacity of 2.0 is rejected at
construction. -/
theorem claim_C4_config_validation_amended_witness :
    ImageWatermarkConfig.validate rawBadOpacity =
      .error "opacity must be between 0.0 and 1.0" :=
  claim_C4_config_validation_amended.1 rawBadOpacity (by decide)

/-- Counterexample to claim C10: with `logo_base64` set to the empty string and
`logo_path` set, both fields are set, yet `load_logo` loads from the path — it
neither decodes the base64 value nor ignores `logo_path`, because the empty
string is falsy in Python. -/
theorem claim_C10_counterexample :
    cfgEmptyB64.logo_base64 ≠ none ∧ cfgEmptyB64.logo_path ≠ none ∧
    load_logo decodeStub loadStub cfgEmptyB64 = .ok imgB ∧
    decodeStub (cfgEmptyB64.logo_base64.getD "") = .ok imgA ∧
    load_logo decodeStub loadStub cfgEmptyB64 ≠
      decodeStub (cfgEmptyB64.logo_base64.getD "") := by
  refine ⟨by decide, by decide, by decide, by decide, by decide⟩

/-- Claim C10 (amended): whenever `logo_base64` is set to a non-empty string,
`load_logo` decodes the logo from it and silently ignores `logo_path` whatever
its value; no both-set error exists (an empty `logo_base64` string is treated
as absent, falling back to `logo_path`). -/
theorem claim_C10_load_logo_amended :
    ∀ (decode_base64_image load_image : String → Except String Img)
      (cfg : ImageWatermarkConfig) (s : String),
      cfg.logo_base64 = some s → s ≠ "" →
      load_logo decode_base64_image load_image cfg = decode_base64_image s := by
  intro d l cfg s hb hs
  rw [load_logo, hb]
  simp [pyTruthyStr, hs]

/-- Witness for claim C10 (amended): with both sources set and a non-empty
base64 value, the logo comes from the base64 decoder. -/
theorem claim_C10_load_logo_amended_witness :
    load_logo decodeStub loadStub cfgBothSet = decodeStub "aGk=" :=
  claim_C10_load_logo_amended decodeStub loadStub cfgBothSet "aGk=" (by decide) (by decide)

/-- Claim C1, evaluated at the failing input (one corrupt file among 4 valid
files): the per-file failure is caught and recorded (4 successful results, 1
failed result whose error message is present and non-empty, all 5 progress
events fire), but the final `BatchProcessingResult(...)` call omits the
required `total_files` field, so `process_batch` raises a pydantic
`ValidationError` instead of returning a result — contradicting the claim and
the repository's own tests. -/
theorem claim_C1_batch_error_isolation :
    ((c1Paths.map fun p => process_single_image pipelineOneCorrupt p defaultBatchCfg).filter
        fun r => r.success).length = 4 ∧
    ((c1Paths.map fun p => process_single_image pipelineOneCorrupt p defaultBatchCfg).filter
        fun r => !r.success).length = 1 ∧
    (∀ r ∈ (c1Paths.map fun p => process_single_image pipelineOneCorrupt p defaultBatchCfg),
      r.success = false → r.error ≠ none ∧ r.error ≠ some "") ∧
    (process_batch pipelineOneCorrupt c1Paths defaultBatchCfg).2.length = 5 ∧
    (process_batch pipelineOneCorrupt c1Paths defaultBatchCfg).1 =
      .error "1 validation error for BatchProcessingResult: total_files is required" := by
  refine ⟨by decide, by decide, by decide, by decide, by decide⟩

/-- Claim C7, evaluated at a batch of 5 valid images: the progress callback
fires exactly 5 times, in completion order, with strictly increasing completed
counts ending at 5 and the correct filenames, and 5 successes and 0 failures
are counted — but the batch result never reaches the caller because the final
`BatchProcessingResult(...)` call omits the required `total_files` field and
raises a pydantic `ValidationError`. -/
theorem claim_C7_progress_callback :
    (process_batch pipelineOk c7Paths defaultBatchCfg).2 =
      [(1, 5, "img1.jpg"), (2, 5, "img2.jpg"), (3, 5, "img3.jpg"),
       (4, 5, "img4.jpg"), (5, 5, "img5.jpg")] ∧
    ((c7Paths.map fun p => process_single_image pipelineOk p defaultBatchCfg).filter
        fun r => r.success).length = 5 ∧
    ((c7Paths.map fun p => process_single_image pipelineOk p defaultBatchCfg).filter
        fun r => !r.success).length = 0 ∧
    (process_batch pipelineOk c7Paths defaultBatchCfg).1 =
      .error "1 validation error for BatchProcessingResult: total_files is required" := by
  refine ⟨by decide, by decide, by decide, by decide⟩

/-- Counterexample to claim C2: a `.mp4` path passes the extension filter of
`process_batch` (the filter set is `SUPPORTED_INPUT_FORMATS`, which includes
the video extensions), so it is dispatched and counted in the reported total
rather than silently excluded. -/
theorem claim_C2_counterexample :
    pyLower mp4Path.ext = ".mp4" ∧
    ".mp4" ∉ SUPPORTED_IMAGE_FORMATS ∧
    ".mp4" ∈ SUPPORTED_INPUT_FORMATS ∧
    (process_batch pipelineOk [mp4Path] defaultBatchCfg).2 = [(1, 1, "video.mp4")] := by
  refine ⟨by decide, by decide, by decide, by decide⟩

/-- Claim C2 (amended): `process_batch` dispatches exactly those paths whose
lowercased extension belongs to `SUPPORTED_INPUT_FORMATS`, the union of the
image extensions with the video extensions; paths with any other extension
(such as `.txt`) are silently excluded before dispatch and not counted in the
total, but `.mp4` and the other video extensions are dispatched and counted. -/
theorem claim_C2_filter_amended :
    (∀ s : String, s ∈ SUPPORTED_INPUT_FORMATS ↔
      s ∈ SUPPORTED_IMAGE_FORMATS ∨ s ∈ SUPPORTED_VIDEO_FORMATS) ∧
    (∀ (pipeline : PyPath → Except String ((ℕ × ℕ) × (ℕ × ℕ)))
      (config : BatchCfg) (input_paths : List PyPath),
      (process_batch pipeline input_paths config).2 =
        (input_paths.filter fun p => pyLower p.ext ∈ SUPPORTED_IMAGE_FORMATS
            ∨ pyLower p.ext ∈ SUPPORTED_VIDEO_FORMATS).enum.map
          fun ip => (ip.1 + 1,
            (input_paths.filter fun p => pyLower p.ext ∈ SUPPORTED_IMAGE_FORMATS
              ∨ pyLower p.ext ∈ SUPPORTED_VIDEO_FORMATS).length, ip.2.name)) ∧
    (process_batch pipelineOk [mp4Path, txtPath] defaultBatchCfg).2 = [(1, 1, "video.mp4")] := by
  refine ⟨?_, ?_, by decide⟩
  · intro s
    simp [SUPPORTED_INPUT_FORMATS, List.mem_append]
  · intro pipeline config input_paths
    have hfilter : (input_paths.filter fun p => pyLower p.ext ∈ SUPPORTED_INPUT_FORMATS) =
        (input_paths.filter fun p => pyLower p.ext ∈ SUPPORTED_IMAGE_FORMATS
          ∨ pyLower p.ext ∈ SUPPORTED_VIDEO_FORMATS) :=
      List.filter_congr fun p _ =>
        decide_eq_decide.2 (by simp [SUPPORTED_INPUT_FORMATS, List.mem_append])
    show ((input_paths.filter fun p => pyLower p.ext ∈ SUPPORTED_INPUT_FORMATS).enum.map
        fun ip => (ip.1 + 1,
          (input_paths.filter fun p => pyLower p.ext ∈ SUPPORTED_INPUT_FORMATS).length,
          ip.2.name)) = _
    rw [hfilter]

/-- Witness for claim C6 at a concrete buffer: applying opacity 0.0 to the
1 by 1 red image zeroes the alpha of its (only) pixel. -/
theorem claim_C6_apply_opacity_witness :
    Pixel.mk 255 0 0 0 ∈ (apply_opacity imgA 0).pixels ∧ (Pixel.mk 255 0 0 0).a = 0 := by
  have hmem : Pixel.mk 255 0 0 0 ∈ (apply_opacity imgA 0).pixels := by
    simp [apply_opacity, imgA, pyTrunc]
  exact ⟨hmem, (claim_C6_apply_opacity.2.2 imgA).2.2 (Pixel.mk 255 0 0 0) hmem⟩
